import Mathlib

/-!
Shallow embedding of the coeus-oracle Nautilus server core
(src/nautilus-server/src/apps/coeus-oracle/mod.rs): the Rhai dynamic value
model, the type coercion engine (convert_rhai_result), the JSON decoding
used by the host API (json_value_to_dynamic), the isolation-boundary
crossing used by execute_rhai_code_async, the execute_code endpoint, and
the process_data pipeline.  Collaborators that live outside the embedded
source (the Rhai interpreter, the ledger and blob-store clients, BCS, the
system clock, the signing helper) appear as explicit inputs.
-/

namespace CoeusOracle

/-- Oracle result values (Rust enum ResultValue in mod.rs).  NUMBER holds a
u64, modelled as a Nat kept below 2^64 by construction; VECTOR holds a byte
sequence, modelled as a list of Nat each below 256 by construction. -/
inductive ResultValue where
  | STRING (s : String)
  | BOOLEAN (b : Bool)
  | NUMBER (n : Nat)
  | VECTOR (bs : List Nat)
deriving DecidableEq, Repr

/-- Declared return types (Rust enum ReturnType in mod.rs). -/
inductive ReturnType where
  | STRING
  | BOOLEAN
  | NUMBER
  | VECTOR
deriving DecidableEq, Repr

/-- Supported script languages (Rust enum CodeExtension in mod.rs). -/
inductive CodeExtension where
  | RHAI
deriving DecidableEq, Repr

/-- Modelled from the spec: EnclaveError is declared at the crate root,
outside the embedded source files; per the spec every pipeline failure is
surfaced as a human-readable message, and mod.rs only ever builds the
GenericError variant, whose display is its message. -/
inductive EnclaveError where
  | GenericError (msg : String)
deriving DecidableEq, Repr

/-- Display of an EnclaveError (the string used by e.to_string()). -/
def EnclaveError.toMessage : EnclaveError → String
  | .GenericError m => m

/-- Rhai dynamic values as used by this module: unit, booleans, i64
integers, f64 floats, immutable strings, arrays and object maps.  Floats
are modelled as rational numbers: every finite f64 value is rational; NaN
and the infinities are not representable in the model and no claim below
depends on them. -/
inductive Dynamic where
  | unit
  | bool (b : Bool)
  | int (n : Int)
  | float (q : Rat)
  | str (s : String)
  | array (xs : List Dynamic)
  | map (kvs : List (String × Dynamic))

/-- Rhai Dynamic::as_int: succeeds exactly on integer dynamics (no
cross-type coercion). -/
def Dynamic.as_int : Dynamic → Option Int
  | .int n => some n
  | _ => none

/-- Rhai Dynamic::as_float: succeeds exactly on float dynamics. -/
def Dynamic.as_float : Dynamic → Option Rat
  | .float q => some q
  | _ => none

/-- Rhai Dynamic::as_bool: succeeds exactly on boolean dynamics. -/
def Dynamic.as_bool : Dynamic → Option Bool
  | .bool b => some b
  | _ => none

/-- Rhai Dynamic::into_string (after a clone): succeeds exactly on string
dynamics. -/
def Dynamic.into_string : Dynamic → Option String
  | .str s => some s
  | _ => none

/-- Rhai Dynamic::try_cast into an Array: succeeds exactly on array
dynamics. -/
def Dynamic.try_cast_array : Dynamic → Option (List Dynamic)
  | .array xs => some xs
  | _ => none

/-- Stand-in for the Rust Display form of an f64.  No claim in this
development depends on the textual form of a float; the definition only
needs to be a fixed total function. -/
def floatDisplay (q : Rat) : String := toString q

mutual

/-- Rust Debug formatting of a Rhai dynamic, which Rhai uses for the
elements inside arrays and maps.  Escaping of special characters inside
strings is elided; no claim below evaluates it on strings containing
quotes or escapes. -/
def rhaiDebug : Dynamic → String
  | .unit => "()"
  | .bool b => toString b
  | .int n => toString n
  | .float q => floatDisplay q
  | .str s => "\"" ++ s ++ "\""
  | .array xs => "[" ++ rhaiDebugList xs ++ "]"
  | .map kvs => "#\x7b" ++ rhaiDebugMap kvs ++ "\x7d"

/-- Comma separated Debug rendering of array elements. -/
def rhaiDebugList : List Dynamic → String
  | [] => ""
  | [x] => rhaiDebug x
  | x :: y :: rest => rhaiDebug x ++ ", " ++ rhaiDebugList (y :: rest)

/-- Comma separated Debug rendering of map entries. -/
def rhaiDebugMap : List (String × Dynamic) → String
  | [] => ""
  | [(k, v)] => "\"" ++ k ++ "\": " ++ rhaiDebug v
  | (k, v) :: e :: rest => "\"" ++ k ++ "\": " ++ rhaiDebug v ++ ", " ++ rhaiDebugMap (e :: rest)

end

/-- Rhai Dynamic::to_string, the Display form: unit shows as the empty
string, scalars show their values, strings show unquoted, arrays and maps
show in their Debug form. -/
def Dynamic.to_string : Dynamic → String
  | .unit => ""
  | .bool b => toString b
  | .int n => toString n
  | .float q => floatDisplay q
  | .str s => s
  | .array xs => "[" ++ rhaiDebugList xs ++ "]"
  | .map kvs => "#\x7b" ++ rhaiDebugMap kvs ++ "\x7d"

/-- UTF-8 encoding of one Unicode scalar value, byte by byte. -/
def charUTF8 (c : Char) : List Nat :=
  let n := c.toNat
  if n < 128 then [n]
  else if n < 2048 then [192 + n / 64, 128 + n % 64]
  else if n < 65536 then [224 + n / 4096, 128 + n / 64 % 64, 128 + n % 64]
  else [240 + n / 262144, 128 + n / 4096 % 64, 128 + n / 64 % 64, 128 + n % 64]

/-- Rust String::as_bytes: the UTF-8 bytes of a string. -/
def stringBytes (s : String) : List Nat :=
  (s.data.map charUTF8).flatten

/-- Rust str::trim: remove leading and trailing whitespace.  Implemented
over the character list so that concrete instances reduce inside the
kernel. -/
def strTrim (s : String) : String :=
  String.mk ((s.data.dropWhile Char.isWhitespace).reverse.dropWhile Char.isWhitespace).reverse

/-- ASCII lowercasing of one character (full Unicode case mapping is
elided; no claim below depends on non-ASCII case folding). -/
def charToLower (c : Char) : Char :=
  if 65 ≤ c.toNat ∧ c.toNat ≤ 90 then Char.ofNat (c.toNat + 32) else c

/-- Rust str::to_lowercase, over the character list. -/
def strToLower (s : String) : String := String.mk (s.data.map charToLower)

/-- Rust str::starts_with, over the character list. -/
def strStartsWith (s pre : String) : Bool := pre.data.isPrefixOf s.data

/-- Largest u64 value. -/
def u64Max : Nat := 18446744073709551615

/-- Largest i64 value. -/
def i64Max : Nat := 9223372036854775807

/-- Rust str::parse into u64: an optional leading plus sign, then one or
more ASCII digits, with the value at most u64::MAX; anything else fails. -/
def parseU64 (s : String) : Option Nat :=
  let cs := if strStartsWith s "+" then s.data.drop 1 else s.data
  if cs.isEmpty then none
  else if cs.all Char.isDigit then
    let n := cs.foldl (fun acc c => acc * 10 + (c.toNat - 48)) 0
    if n ≤ u64Max then some n else none
  else none

/-- Rust `as` cast from f64 to u64: truncation toward zero, saturating at
the u64 range (negative inputs give 0, values at or above 2^64 give
u64::MAX).  For a non-negative value below 2^64 this is exactly the
floor. -/
def f64_as_u64 (q : Rat) : Nat := min (Int.floor q).toNat u64Max

/-- The element loop of the VECTOR branch of convert_rhai_result: integers
in the range 0 to 255 append one byte, strings append their UTF-8 bytes,
any other element type aborts; an out-of-range integer aborts with the
out-of-range error. -/
def collectVectorBytes : List Dynamic → Except EnclaveError (List Nat)
  | [] => .ok []
  | item :: rest =>
    match item.as_int with
    | some num =>
      if 0 ≤ num ∧ num ≤ 255 then
        (collectVectorBytes rest).map (fun tail => num.toNat :: tail)
      else
        .error (.GenericError ("Value " ++ toString num ++ " out of u8 range"))
    | none =>
      match item.into_string with
      | some s => (collectVectorBytes rest).map (fun tail => stringBytes s ++ tail)
      | none => .error (.GenericError "Unsupported array element type")

/-- The type coercion engine (mod.rs convert_rhai_result): converts a Rhai
dynamic result into a ResultValue according to the expected return type.
The trailing ParseIntError text that Rust appends to the NUMBER parse
failure message is elided; no claim depends on it. -/
def convert_rhai_result (dynamic : Dynamic) (expected_type : ReturnType) :
    Except EnclaveError (Option ResultValue) :=
  match expected_type with
  | .STRING => .ok (some (.STRING (strTrim dynamic.to_string)))
  | .NUMBER =>
    match dynamic.as_int with
    | some num =>
      if 0 ≤ num then .ok (some (.NUMBER num.toNat))
      else .error (.GenericError ("Negative number not supported: " ++ toString num))
    | none =>
      match dynamic.as_float with
      | some num =>
        if 0 ≤ num then .ok (some (.NUMBER (f64_as_u64 num)))
        else .error (.GenericError ("Negative number not supported: " ++ floatDisplay num))
      | none =>
        let s := strTrim dynamic.to_string
        if strStartsWith s "Error:" then
          .error (.GenericError ("Rhai code execution failed: " ++ s))
        else
          match parseU64 s with
          | some n => .ok (some (.NUMBER n))
          | none =>
            .error (.GenericError
              ("Cannot convert to NUMBER: string \x27" ++ s ++ "\x27 is not a valid number"))
  | .BOOLEAN =>
    match dynamic.as_bool with
    | some b => .ok (some (.BOOLEAN b))
    | none =>
      let s := strToLower (strTrim dynamic.to_string)
      if s = "true" ∨ s = "1" then .ok (some (.BOOLEAN true))
      else if s = "false" ∨ s = "0" then .ok (some (.BOOLEAN false))
      else .error (.GenericError "Cannot convert to BOOLEAN")
  | .VECTOR =>
    match dynamic.try_cast_array with
    | some arr => (collectVectorBytes arr).map (fun bs => some (.VECTOR bs))
    | none => .ok (some (.VECTOR (stringBytes dynamic.to_string)))

/-- serde_json number representations (arbitrary precision disabled): an
unsigned 64-bit integer, a negative signed 64-bit integer, or a finite f64
(modelled as a rational, see Dynamic.float). -/
inductive JNumber where
  | posInt (n : Nat)
  | negInt (n : Int)
  | float (q : Rat)
deriving DecidableEq, Repr

/-- serde_json values. -/
inductive JsonValue where
  | null
  | bool (b : Bool)
  | num (n : JNumber)
  | str (s : String)
  | arr (xs : List JsonValue)
  | obj (kvs : List (String × JsonValue))

/-- serde_json Number::as_i64: an unsigned value succeeds only when it fits
in i64, a negative value always succeeds, a float never does. -/
def JNumber.as_i64 : JNumber → Option Int
  | .posInt n => if n ≤ i64Max then some (n : Int) else none
  | .negInt n => some n
  | .float _ => none

/-- serde_json Number::as_f64.  The real conversion of 64-bit integers to
f64 rounds to the nearest representable float; it is modelled exactly
here, and no claim depends on the rounded value, only on the result being
a float. -/
def JNumber.as_f64 : JNumber → Option Rat
  | .posInt n => some (n : Rat)
  | .negInt n => some (n : Rat)
  | .float q => some q

/-- Textual form of a serde_json number; only reachable in
json_value_to_dynamic when both as_i64 and as_f64 fail, which cannot
happen with arbitrary precision disabled. -/
def jnumberToString : JNumber → String
  | .posInt n => toString n
  | .negInt n => toString n
  | .float q => floatDisplay q

mutual

/-- mod.rs json_value_to_dynamic: converts a serde_json value into a Rhai
dynamic value (null to unit, bool to bool, numbers via as_i64 then as_f64,
strings to strings, arrays and objects recursively). -/
def json_value_to_dynamic : JsonValue → Dynamic
  | .null => .unit
  | .bool b => .bool b
  | .num n =>
    match n.as_i64 with
    | some i => .int i
    | none =>
      match n.as_f64 with
      | some f => .float f
      | none => .str (jnumberToString n)
  | .str s => .str s
  | .arr xs => .array (jsonListToDynamic xs)
  | .obj kvs => .map (jsonObjToDynamic kvs)

/-- Elementwise conversion of a JSON array. -/
def jsonListToDynamic : List JsonValue → List Dynamic
  | [] => []
  | x :: xs => json_value_to_dynamic x :: jsonListToDynamic xs

/-- Entrywise conversion of a JSON object. -/
def jsonObjToDynamic : List (String × JsonValue) → List (String × Dynamic)
  | [] => []
  | kv :: rest => (kv.1, json_value_to_dynamic kv.2) :: jsonObjToDynamic rest

end

/-- The Send-safe serialization step inside the spawned thread of
execute_rhai_code_async: the match on type_name maps the five scalar
shapes to the corresponding JSON scalars (a non-finite float would map to
null, which the rational float model cannot represent), and every other
dynamic, arrays and maps included, falls to the catch-all arm and
collapses to a JSON string holding its textual representation. -/
def dynamic_to_json : Dynamic → JsonValue
  | .unit => .null
  | .bool b => .bool b
  | .int n => if 0 ≤ n then .num (.posInt n.toNat) else .num (.negInt n)
  | .float q => .num (.float q)
  | .str s => .str s
  | .array xs => .str (Dynamic.to_string (.array xs))
  | .map kvs => .str (Dynamic.to_string (.map kvs))

/-- The full isolation-boundary crossing of execute_rhai_code_async: the
dynamic result is serialized to a JSON value, printed to a string, sent
over the one-shot channel, parsed back on the consuming side, and decoded
with json_value_to_dynamic.  The serde_json print/parse round trip is
value preserving on this representation, so the crossing is modelled as
the composition of the two conversions. -/
def cross_boundary (d : Dynamic) : Dynamic :=
  json_value_to_dynamic (dynamic_to_json d)

/-- Outcome of evaluating a Rhai script once: the interpreter itself is an
external collaborator of the embedded code, so a script is represented by
the dynamic value (or the evaluation error text) that its single
evaluation produces. -/
inductive EvalOutcome where
  | ok (d : Dynamic)
  | err (e : String)

/-- mod.rs execute_rhai_code, the synchronous variant: evaluate, then
coerce the dynamic result directly. -/
def execute_rhai_code (outcome : EvalOutcome) (expected_type : ReturnType) :
    Except EnclaveError (Option ResultValue) :=
  match outcome with
  | .ok d => convert_rhai_result d expected_type
  | .err e => .error (.GenericError ("Rhai execution error: " ++ e))

/-- mod.rs execute_rhai_code_async: evaluate on a dedicated thread, cross
the isolation boundary in serialized JSON form, then coerce the
reconstructed value.  The spawned thread always sends exactly once and
serde_json never fails to reprint/reparse its own output, so the
channel-failure and reparse-failure arms of the Rust code are
unreachable and not modelled. -/
def execute_rhai_code_async (outcome : EvalOutcome) (expected_type : ReturnType) :
    Except EnclaveError (Option ResultValue) :=
  match outcome with
  | .ok d => convert_rhai_result (cross_boundary d) expected_type
  | .err e => .error (.GenericError ("Rhai execution error: " ++ e))

/-- Response of the execute_code endpoint (mod.rs ExecuteCodeResponse). -/
structure ExecuteCodeResponse where
  result : ResultValue
  success : Bool
  error : Option String
deriving DecidableEq, Repr

/-- mod.rs execute_code endpoint: runs the async pipeline on the supplied
code and declared return type; every arm returns Ok, reporting any failure
in band through success and error. -/
def execute_code (outcome : EvalOutcome) (return_type : ReturnType) :
    Except EnclaveError ExecuteCodeResponse :=
  match execute_rhai_code_async outcome return_type with
  | .ok (some result) => .ok ⟨result, true, none⟩
  | .ok none => .ok ⟨.STRING "", false, some "Rhai code execution returned no result"⟩
  | .error e => .ok ⟨.STRING "", false, some e.toMessage⟩

/-- BCS field of a ledger object (sui_rpc Bcs message). -/
structure BcsData where
  value : Option (List Nat)
deriving DecidableEq, Repr

/-- Object field of a GetObjectResponse. -/
structure ObjectData where
  bcs : Option BcsData
deriving DecidableEq, Repr

/-- Response of the ledger get_object call. -/
structure GetObjectResponse where
  object : Option ObjectData
deriving DecidableEq, Repr

/-- mod.rs OracleFeed, the feed schema deserialized from the ledger
object. -/
structure OracleFeed where
  id : String
  blob_id : String
  extension : CodeExtension
  result : Option ResultValue
  return_type : ReturnType
  allow_update_timestamp_ms : Nat
deriving DecidableEq, Repr

/-- Modelled from the spec: to_signed_response and the signing collaborator
live outside the embedded source; per the spec the envelope packages the
produced oracle value with the timestamp for signing. -/
structure SignedResponse where
  result : ResultValue
  timestamp_ms : Nat
deriving DecidableEq, Repr

/-- Outcomes of the external or fallible steps that process_data performs,
in pipeline order; the collaborators themselves (hex parsing, the ledger
client, BCS deserialization, the system clock, the blob HTTP fetch and the
Rhai engine) are outside the embedded source and appear as inputs. -/
structure ProcessEnv where
  feed_id_parse : Except String Unit
  ledger_get_object : Except String GetObjectResponse
  object_deserialize : Except String Unit
  object_as_struct : Option Unit
  feed_deserialize : Except String OracleFeed
  timestamp_ms : Except String Nat
  blob_get : Except String Unit
  body_text : Except String String
  rhai_eval : EvalOutcome

/-- Result of running a request handler body: either it returns a value, or
the executing task panics (a Rust panic raised by unwrap).  The panic
message is modelled as the displayed payload of the unwrapped error. -/
inductive PanicOr (α : Type) where
  | panicked (msg : String)
  | returned (v : α)
deriving DecidableEq, Repr

/-- Rust Result::unwrap on a string-error result. -/
def unwrapExcept {α : Type} : Except String α → PanicOr α
  | .ok a => .returned a
  | .error e => .panicked e

/-- mod.rs process_data: parse the feed id, fetch the feed object from the
ledger (unwrap), extract the BCS bytes (ok_or_else immediately followed by
unwrap), deserialize the object and the OracleFeed, take the timestamp,
fetch the blob body over HTTP (unwrap, twice), run the script through
execute_rhai_code_async if the extension is RHAI, and package the result
for signing. -/
def process_data (env : ProcessEnv) : PanicOr (Except EnclaveError SignedResponse) :=
  match env.feed_id_parse with
  | .error e => .returned (.error (.GenericError ("Invalid feed_id format: " ++ e)))
  | .ok _ =>
  match unwrapExcept env.ledger_get_object with
  | .panicked m => .panicked m
  | .returned response =>
  match (response.object.bind ObjectData.bcs).bind BcsData.value with
  | none => .panicked "No BCS data in Committee object"
  | some _bcs_bytes =>
  match env.object_deserialize with
  | .error e => .returned (.error (.GenericError ("Failed to deserialize object: " ++ e)))
  | .ok _ =>
  match env.object_as_struct with
  | none => .returned (.error (.GenericError "Object is not a Move object"))
  | some _ =>
  match env.feed_deserialize with
  | .error e => .returned (.error (.GenericError ("Failed to deserialize OracleFeed: " ++ e)))
  | .ok oracle_feed =>
  match env.timestamp_ms with
  | .error e => .returned (.error (.GenericError ("Failed to get current timestamp: " ++ e)))
  | .ok timestamp_ms =>
  match unwrapExcept env.blob_get with
  | .panicked m => .panicked m
  | .returned _ =>
  match unwrapExcept env.body_text with
  | .panicked m => .panicked m
  | .returned _body =>
  if oracle_feed.extension = CodeExtension.RHAI then
    match execute_rhai_code_async env.rhai_eval oracle_feed.return_type with
    | .error e =>
      .returned (.error (.GenericError ("Failed to execute Rhai code: " ++ e.toMessage)))
    | .ok none =>
      .returned (.error (.GenericError "Rhai code execution returned no result"))
    | .ok (some result) => .returned (.ok ⟨result, timestamp_ms⟩)
  else
    .returned (.error (.GenericError "Unsupported code extension"))

/-- Discriminator: is this dynamic an integer. -/
def Dynamic.isInt : Dynamic → Bool
  | .int _ => true
  | _ => false

/-- Discriminator: is this dynamic a float. -/
def Dynamic.isFloat : Dynamic → Bool
  | .float _ => true
  | _ => false

/-! Helper lemmas shared by the claim theorems. -/

theorem jsonListToDynamic_eq_map (xs : List JsonValue) :
    jsonListToDynamic xs = xs.map json_value_to_dynamic := by
  induction xs with
  | nil => rfl
  | cons x xs ih => simp [jsonListToDynamic, ih]

theorem jsonObjToDynamic_eq_map (kvs : List (String × JsonValue)) :
    jsonObjToDynamic kvs = kvs.map (fun kv => (kv.1, json_value_to_dynamic kv.2)) := by
  induction kvs with
  | nil => rfl
  | cons kv rest ih => simp [jsonObjToDynamic, ih]

theorem f64_as_u64_eq_floor (q : Rat) (_h0 : 0 ≤ q) (h64 : q < (2 : Rat) ^ 64) :
    f64_as_u64 q = (Int.floor q).toNat := by
  have hf : Int.floor q < (18446744073709551616 : Int) := by
    have hle : ((Int.floor q : Int) : Rat) ≤ q := Int.floor_le q
    have hlt : ((Int.floor q : Int) : Rat) < (18446744073709551616 : Rat) := by
      calc ((Int.floor q : Int) : Rat) ≤ q := hle
        _ < (2 : Rat) ^ 64 := h64
        _ = (18446744073709551616 : Rat) := by norm_num
    exact_mod_cast hlt
  have h1 : (Int.floor q).toNat ≤ u64Max := by
    unfold u64Max
    omega
  simp [f64_as_u64, min_eq_left h1]

theorem boolean_text_eval (d : Dynamic) (hd : d.as_bool = none) :
    convert_rhai_result d .BOOLEAN =
      (if strToLower (strTrim d.to_string) = "true" ∨ strToLower (strTrim d.to_string) = "1"
       then .ok (some (.BOOLEAN true))
       else if strToLower (strTrim d.to_string) = "false" ∨ strToLower (strTrim d.to_string) = "0"
       then .ok (some (.BOOLEAN false))
       else .error (.GenericError "Cannot convert to BOOLEAN")) := by
  simp only [convert_rhai_result, hd]

/-! Claim theorems. -/

/-- C1: the claim fails on the code.  A script whose sole result is the
sequence [1,2,3,4,5], coerced to VECTOR through execute_code (which uses
execute_rhai_code_async), does NOT yield VECTOR([1,2,3,4,5]): the
isolation boundary stringifies the array, so the endpoint reports success
with the VECTOR of the fifteen ASCII bytes of the text [1, 2, 3, 4, 5].
The direct coercion of the same result (the synchronous path the tests
exercise) does yield VECTOR([1,2,3,4,5]) as the spec intends. -/
theorem vector_script_via_async_path_stringifies :
    convert_rhai_result (.array [.int 1, .int 2, .int 3, .int 4, .int 5]) .VECTOR
      = .ok (some (.VECTOR [1, 2, 3, 4, 5])) ∧
    execute_code (.ok (.array [.int 1, .int 2, .int 3, .int 4, .int 5])) .VECTOR
      = .ok ⟨.VECTOR [91, 49, 44, 32, 50, 44, 32, 51, 44, 32, 52, 44, 32, 53, 93], true, none⟩ ∧
    ([91, 49, 44, 32, 50, 44, 32, 51, 44, 32, 52, 44, 32, 53, 93] : List Nat)
      ≠ [1, 2, 3, 4, 5] :=
  ⟨rfl, rfl, by decide⟩

/-- C2: the claim fails on the code.  The isolation-boundary crossing of
execute_rhai_code_async does not preserve every script result: an array
result falls into the catch-all arm of the serialization match and crosses
as its display text, so the reconstructed value coerces (under VECTOR) to
the bytes of that text, while direct in-thread evaluation of the same
result (execute_rhai_code) coerces it elementwise. -/
theorem isolation_boundary_not_value_preserving :
    execute_rhai_code (.ok (.array [.int 7])) .VECTOR = .ok (some (.VECTOR [7])) ∧
    execute_rhai_code_async (.ok (.array [.int 7])) .VECTOR
      = .ok (some (.VECTOR [91, 55, 93])) ∧
    (some (ResultValue.VECTOR [91, 55, 93]) : Option ResultValue)
      ≠ some (ResultValue.VECTOR [7]) :=
  ⟨rfl, rfl, by decide⟩

/-- C3: NUMBER coercion follows exactly the staged order of
convert_rhai_result: a non-negative integer is used directly; otherwise a
non-negative float is truncated toward zero (the result is the floor, a
value never exceeding the float, so never rounded up); otherwise the
trimmed textual representation is checked for the reserved error marker
first (failing with the script-reported-error outcome) and only then
parsed as an unsigned 64-bit integer. -/
theorem number_coercion_order :
    (∀ n : Int, 0 ≤ n →
      convert_rhai_result (.int n) .NUMBER = .ok (some (.NUMBER n.toNat))) ∧
    (∀ q : Rat, 0 ≤ q → q < (2 : Rat) ^ 64 →
      convert_rhai_result (.float q) .NUMBER = .ok (some (.NUMBER (Int.floor q).toNat)) ∧
        ((Int.floor q : Int) : Rat) ≤ q ∧ q < ((Int.floor q : Int) : Rat) + 1) ∧
    (∀ d : Dynamic, d.as_int = none → d.as_float = none →
      (strStartsWith (strTrim d.to_string) "Error:" = true →
        convert_rhai_result d .NUMBER
          = .error (.GenericError ("Rhai code execution failed: " ++ strTrim d.to_string))) ∧
      (strStartsWith (strTrim d.to_string) "Error:" = false →
        ∀ n : Nat, parseU64 (strTrim d.to_string) = some n →
          convert_rhai_result d .NUMBER = .ok (some (.NUMBER n)))) := by
  refine ⟨?_, ?_, ?_⟩
  · intro n hn
    simp [convert_rhai_result, Dynamic.as_int, hn]
  · intro q h0 h64
    refine ⟨?_, Int.floor_le q, Int.lt_floor_add_one q⟩
    simp [convert_rhai_result, Dynamic.as_int, Dynamic.as_float, h0,
      f64_as_u64_eq_floor q h0 h64]
  · intro d h1 h2
    constructor
    · intro hs
      simp [convert_rhai_result, h1, h2, hs]
    · intro hs n hp
      simp [convert_rhai_result, h1, h2, hs, hp]

/-- Witness for the number coercion order theorem at concrete inputs: the
integer 5, the float 7/2 (truncating to 3), a script-reported error text,
and the numeric text 123. -/
theorem number_coercion_order_witness :
    convert_rhai_result (.int 5) .NUMBER = .ok (some (.NUMBER (Int.toNat 5))) ∧
    convert_rhai_result (.float (7 / 2)) .NUMBER = .ok (some (.NUMBER 3)) ∧
    convert_rhai_result (.str "Error: boom") .NUMBER
      = .error (.GenericError
          ("Rhai code execution failed: " ++ strTrim (Dynamic.to_string (.str "Error: boom")))) ∧
    convert_rhai_result (.str "123") .NUMBER = .ok (some (.NUMBER 123)) := by
  refine ⟨number_coercion_order.1 5 (by norm_num), ?_, ?_, ?_⟩
  · have h := (number_coercion_order.2.1 (7 / 2) (by norm_num) (by norm_num)).1
    have hf : Int.floor ((7 : Rat) / 2) = 3 := by
      rw [Int.floor_eq_iff]
      norm_num
    rw [h, hf]
    rfl
  · exact (number_coercion_order.2.2 (.str "Error: boom") rfl rfl).1 rfl
  · exact (number_coercion_order.2.2 (.str "123") rfl rfl).2 rfl 123 rfl

/-- C4: the claim fails on the code.  process_data can panic instead of
returning a wrapped error: when the ledger get_object transport call
fails, when the returned object carries no BCS payload (the code builds
the GenericError for exactly this case with ok_or_else and then
immediately unwraps it), and when the blob-store HTTP fetch fails. -/
theorem process_data_panics_on_external_failures :
    process_data ⟨.ok (), .error "transport unreachable", .ok (), some (),
        .ok ⟨"i", "b", .RHAI, none, .STRING, 0⟩, .ok 0, .ok (), .ok "", .ok .unit⟩
      = .panicked "transport unreachable" ∧
    process_data ⟨.ok (), .ok ⟨some ⟨none⟩⟩, .ok (), some (),
        .ok ⟨"i", "b", .RHAI, none, .STRING, 0⟩, .ok 0, .ok (), .ok "", .ok .unit⟩
      = .panicked "No BCS data in Committee object" ∧
    process_data ⟨.ok (), .ok ⟨some ⟨some ⟨some [1]⟩⟩⟩, .ok (), some (),
        .ok ⟨"i", "b", .RHAI, none, .STRING, 0⟩, .ok 0, .error "connection refused", .ok "",
        .ok .unit⟩
      = .panicked "connection refused" :=
  ⟨rfl, rfl, rfl⟩

/-- C5: the claim fails on the code for the execute_code path.  Direct
VECTOR coercion of a sequence containing 256 fails with the out-of-range
error and never truncates, as the claim states; but through execute_code
the sequence is stringified at the isolation boundary, so the call
succeeds and returns the bytes of the text [256] instead of failing. -/
theorem out_of_range_vector_via_execute_code_succeeds :
    convert_rhai_result (.array [.int 256]) .VECTOR
      = .error (.GenericError "Value 256 out of u8 range") ∧
    convert_rhai_result (.array [.int (-1)]) .VECTOR
      = .error (.GenericError "Value -1 out of u8 range") ∧
    execute_code (.ok (.array [.int 256])) .VECTOR
      = .ok ⟨.VECTOR [91, 50, 53, 54, 93], true, none⟩ :=
  ⟨rfl, rfl, rfl⟩

/-- C6: execute_code never fails the transport call: for every evaluation
outcome and declared return type it returns Ok with a well-formed
response, and when the execution/coercion pipeline fails the failure is
reported in band via success=false and the displayed error message. -/
theorem execute_code_never_fails_transport :
    (∀ (o : EvalOutcome) (rt : ReturnType), ∃ r, execute_code o rt = .ok r) ∧
    (∀ (o : EvalOutcome) (rt : ReturnType) (e : EnclaveError),
      execute_rhai_code_async o rt = .error e →
        execute_code o rt = .ok ⟨.STRING "", false, some e.toMessage⟩) := by
  constructor
  · intro o rt
    unfold execute_code
    cases h : execute_rhai_code_async o rt with
    | ok v =>
      cases v with
      | some r => exact ⟨_, rfl⟩
      | none => exact ⟨_, rfl⟩
    | error e => exact ⟨_, rfl⟩
  · intro o rt e h
    unfold execute_code
    rw [h]

/-- Witness for the transport theorem: a failing evaluation still produces
an Ok response with the failure reported in band. -/
theorem execute_code_never_fails_transport_witness :
    execute_code (.err "boom") .STRING
      = .ok ⟨.STRING "", false,
          some (EnclaveError.toMessage (.GenericError "Rhai execution error: boom"))⟩ :=
  execute_code_never_fails_transport.2 (.err "boom") .STRING
    (.GenericError "Rhai execution error: boom") rfl

/-- C7: for every negative numeric script result, NUMBER coercion fails
with the negative-number error and never wraps; in particular a script
whose result is the integer -42, run through execute_code with declared
type NUMBER, yields success=false with an error mentioning Negative
number. -/
theorem negative_number_coercion_always_fails :
    (∀ n : Int, n < 0 →
      convert_rhai_result (.int n) .NUMBER
        = .error (.GenericError ("Negative number not supported: " ++ toString n))) ∧
    (∀ q : Rat, q < 0 →
      convert_rhai_result (.float q) .NUMBER
        = .error (.GenericError ("Negative number not supported: " ++ floatDisplay q))) ∧
    execute_code (.ok (.int (-42))) .NUMBER
      = .ok ⟨.STRING "", false, some "Negative number not supported: -42"⟩ ∧
    strStartsWith "Negative number not supported: -42" "Negative number" = true := by
  refine ⟨?_, ?_, rfl, rfl⟩
  · intro n hn
    have h : ¬ (0 ≤ n) := not_le.mpr hn
    simp [convert_rhai_result, Dynamic.as_int, h]
  · intro q hq
    have h : ¬ (0 ≤ q) := not_le.mpr hq
    simp [convert_rhai_result, Dynamic.as_int, Dynamic.as_float, h]

/-- Witness for the negative number theorem at the integer -3 and the
float -1. -/
theorem negative_number_coercion_always_fails_witness :
    convert_rhai_result (.int (-3)) .NUMBER
      = .error (.GenericError ("Negative number not supported: " ++ toString (-3 : Int))) ∧
    convert_rhai_result (.float (-1)) .NUMBER
      = .error (.GenericError ("Negative number not supported: " ++ floatDisplay (-1))) :=
  ⟨negative_number_coercion_always_fails.1 (-3) (by norm_num),
   negative_number_coercion_always_fails.2.1 (-1) (by norm_num)⟩

/-- C8: BOOLEAN coercion attempts native boolean extraction first; failing
that it lower-cases the trimmed textual representation and accepts exactly
true and 1 as true and false and 0 as false, failing with the not-a-boolean
error on every other value. -/
theorem boolean_coercion_contract :
    (∀ b : Bool, convert_rhai_result (.bool b) .BOOLEAN = .ok (some (.BOOLEAN b))) ∧
    (∀ d : Dynamic, d.as_bool = none →
      ((strToLower (strTrim d.to_string) = "true" ∨ strToLower (strTrim d.to_string) = "1") →
        convert_rhai_result d .BOOLEAN = .ok (some (.BOOLEAN true))) ∧
      ((strToLower (strTrim d.to_string) = "false" ∨ strToLower (strTrim d.to_string) = "0") →
        convert_rhai_result d .BOOLEAN = .ok (some (.BOOLEAN false))) ∧
      (¬ (strToLower (strTrim d.to_string) = "true" ∨ strToLower (strTrim d.to_string) = "1" ∨
          strToLower (strTrim d.to_string) = "false" ∨ strToLower (strTrim d.to_string) = "0") →
        convert_rhai_result d .BOOLEAN = .error (.GenericError "Cannot convert to BOOLEAN"))) := by
  constructor
  · intro b
    simp [convert_rhai_result, Dynamic.as_bool]
  · intro d hd
    refine ⟨?_, ?_, ?_⟩
    · intro h
      rw [boolean_text_eval d hd, if_pos h]
    · intro h
      have hne : ¬ (strToLower (strTrim d.to_string) = "true" ∨
          strToLower (strTrim d.to_string) = "1") := by
        rcases h with h | h <;> rw [h] <;> decide
      rw [boolean_text_eval d hd, if_neg hne, if_pos h]
    · intro h
      push_neg at h
      obtain ⟨h1, h2, h3, h4⟩ := h
      rw [boolean_text_eval d hd, if_neg (by tauto), if_neg (by tauto)]

/-- Witness for the boolean coercion theorem: a native boolean, the text
TRUE with surrounding whitespace, and the unacceptable text maybe. -/
theorem boolean_coercion_contract_witness :
    convert_rhai_result (.bool true) .BOOLEAN = .ok (some (.BOOLEAN true)) ∧
    convert_rhai_result (.str " TRUE ") .BOOLEAN = .ok (some (.BOOLEAN true)) ∧
    convert_rhai_result (.str "maybe") .BOOLEAN
      = .error (.GenericError "Cannot convert to BOOLEAN") :=
  ⟨boolean_coercion_contract.1 true,
   (boolean_coercion_contract.2 (.str " TRUE ") rfl).1 (Or.inl (by decide)),
   (boolean_coercion_contract.2 (.str "maybe") rfl).2.2 (by decide)⟩

/-- C9 counterexample: the JSON integer 18446744073709551615 (u64::MAX,
an integer above the signed 64-bit range) is NOT decoded to a dynamic
integer: as_i64 fails on it and json_value_to_dynamic falls through to
the float conversion. -/
theorem json_integer_beyond_i64_is_float :
    (json_value_to_dynamic (.num (.posInt 18446744073709551615))).isInt = false ∧
    (json_value_to_dynamic (.num (.posInt 18446744073709551615))).isFloat = true :=
  ⟨rfl, rfl⟩

/-- C9 amended: json_value_to_dynamic maps null to unit, booleans to
booleans, integers representable as signed 64-bit values to dynamic
integers, every other number (non-integral, or an integer outside the
signed 64-bit range) to a dynamic float, strings to strings, arrays to
sequences and objects to key maps, recursively mirroring the JSON
structure. -/
theorem json_value_to_dynamic_amended :
    json_value_to_dynamic .null = .unit ∧
    (∀ b : Bool, json_value_to_dynamic (.bool b) = .bool b) ∧
    (∀ s : String, json_value_to_dynamic (.str s) = .str s) ∧
    (∀ n : Nat, n ≤ i64Max → json_value_to_dynamic (.num (.posInt n)) = .int (n : Int)) ∧
    (∀ n : Nat, i64Max < n → (json_value_to_dynamic (.num (.posInt n))).isFloat = true) ∧
    (∀ n : Int, json_value_to_dynamic (.num (.negInt n)) = .int n) ∧
    (∀ q : Rat, json_value_to_dynamic (.num (.float q)) = .float q) ∧
    (∀ xs : List JsonValue,
      json_value_to_dynamic (.arr xs) = .array (xs.map json_value_to_dynamic)) ∧
    (∀ kvs : List (String × JsonValue),
      json_value_to_dynamic (.obj kvs)
        = .map (kvs.map (fun kv => (kv.1, json_value_to_dynamic kv.2)))) := by
  refine ⟨rfl, fun b => rfl, fun s => rfl, ?_, ?_, fun n => rfl, fun q => rfl, ?_, ?_⟩
  · intro n hn
    simp [json_value_to_dynamic, JNumber.as_i64, hn]
  · intro n hn
    have h : ¬ (n ≤ i64Max) := not_le.mpr hn
    simp [json_value_to_dynamic, JNumber.as_i64, JNumber.as_f64, h, Dynamic.isFloat]
  · intro xs
    simp [json_value_to_dynamic, jsonListToDynamic_eq_map]
  · intro kvs
    simp [json_value_to_dynamic, jsonObjToDynamic_eq_map]

/-- Witness for the amended JSON decoding theorem: 42 is decoded to a
dynamic integer and 2^63 (one above i64::MAX) is decoded to a float. -/
theorem json_value_to_dynamic_amended_witness :
    json_value_to_dynamic (.num (.posInt 42)) = .int 42 ∧
    (json_value_to_dynamic (.num (.posInt 9223372036854775808))).isFloat = true :=
  ⟨json_value_to_dynamic_amended.2.2.2.1 42 (by norm_num [i64Max]),
   json_value_to_dynamic_amended.2.2.2.2.1 9223372036854775808 (by norm_num [i64Max])⟩

/-- C10: whenever execute_code reports failure, the result field of its
response is the placeholder STRING of the empty string, regardless of the
declared return type or the failure cause. -/
theorem failure_response_result_is_empty_string :
    ∀ (o : EvalOutcome) (rt : ReturnType) (r : ExecuteCodeResponse),
      execute_code o rt = .ok r → r.success = false → r.result = .STRING "" := by
  intro o rt r hok hfail
  unfold execute_code at hok
  cases h : execute_rhai_code_async o rt with
  | ok v =>
    cases v with
    | some res =>
      rw [h] at hok
      simp only [Except.ok.injEq] at hok
      rw [← hok] at hfail
      simp at hfail
    | none =>
      rw [h] at hok
      simp only [Except.ok.injEq] at hok
      rw [← hok]
  | error e =>
    rw [h] at hok
    simp only [Except.ok.injEq] at hok
    rw [← hok]

/-- Witness for the empty placeholder theorem at a failing evaluation. -/
theorem failure_response_result_is_empty_string_witness :
    (ExecuteCodeResponse.mk (.STRING "") false (some "Rhai execution error: x")).result
      = .STRING "" :=
  failure_response_result_is_empty_string (.err "x") .STRING
    ⟨.STRING "", false, some "Rhai execution error: x"⟩ rfl rfl

end CoeusOracle
